import Mathlib

/-!
Shallow embedding of the conversation state machine of the blue-meta
repository (src/app/graph.py and src/app/main.py), and proofs of the
spec claims about it.

Modelling conventions:
- A langchain message is a `Message` with an optional string id, a role
  (the repository only ever constructs SystemMessage, HumanMessage and
  AIMessage, embedded as the three `Role` constructors) and a content
  string.
- The LangGraph state schema `AgentState(MessagesState)` has three
  channels: `messages` with the add_messages reducer (append, replace by
  matching id, and RemoveMessage directives delete by id), `summary`
  with last-value semantics, and `messages_since_last_summary` declared
  `Annotated[int, operator.add]`, so every node return value for that
  channel is ADDED to the current value by the reducer.
- The LLM client (an external collaborator) is a parameter of type
  `List Message -> Option Message`: `none` models an error or timeout of
  the completion call.
- Fresh uuid4 ids are modelled as explicit string parameters.
- Python `str.strip` is modelled by `String.trim` (whitespace trim).
-/

namespace BlueMeta

/-- Role of a message: the three langchain message classes the repository
constructs (SystemMessage, HumanMessage, AIMessage). -/
inductive Role where
  | system
  | user
  | assistant
deriving DecidableEq, Repr

/-- One conversation turn: optional stable id, role, content.
An id of `none` embeds a Python message whose id attribute is missing,
None, or not a string. -/
structure Message where
  id : Option String
  role : Role
  content : String
deriving DecidableEq, Repr

/-- Constant MESSAGES_TO_KEEP_AFTER_SUMMARY from src/app/graph.py. -/
def MESSAGES_TO_KEEP_AFTER_SUMMARY : Nat := 2

/-- Constant NEW_MESSAGES_THRESHOLD_FOR_SUMMARY from src/app/graph.py. -/
def NEW_MESSAGES_THRESHOLD_FOR_SUMMARY : Int := 10

/-- ensure_message_has_id from src/app/graph.py: assign the fresh uuid
exactly when the message does not already carry a string id. -/
def ensure_message_has_id (fresh : String) (message : Message) : Message :=
  match message.id with
  | none => { message with id := some fresh }
  | some _ => message

/-- The durable per-session state: the three channels of the LangGraph
AgentState schema in src/app/graph.py. -/
structure AgentState where
  messages : List Message
  summary : String
  messages_since_last_summary : Int
deriving DecidableEq, Repr

/-- One element of a node's update to the messages channel: either a new
message or a RemoveMessage tombstone referencing an id. -/
inductive MessageOp where
  | push (m : Message)
  | removeById (i : String)
deriving DecidableEq, Repr

/-- The add_messages reducer for a single pushed message: replace an
existing message carrying the same id, otherwise append. -/
def addMessage (msgs : List Message) (m : Message) : List Message :=
  if msgs.any (fun x => x.id = m.id) then
    msgs.map (fun x => if x.id = m.id then m else x)
  else
    msgs ++ [m]

/-- Apply one message op with add_messages semantics: a RemoveMessage
tombstone deletes every message whose id equals the referenced id. -/
def applyMessageOp (msgs : List Message) : MessageOp → List Message
  | .push m => addMessage msgs m
  | .removeById i => msgs.filter (fun x => x.id ≠ some i)

/-- A node's return value: updates for the three channels. `none` means
the node did not mention that channel. -/
structure StateUpdate where
  messageOps : List MessageOp
  summaryUpdate : Option String
  counterUpdate : Option Int
deriving DecidableEq, Repr

/-- Merge a node's return value into the state with the schema's
reducers: add_messages on messages, last-value on summary, and
operator.add on messages_since_last_summary. -/
def applyUpdate (s : AgentState) (u : StateUpdate) : AgentState :=
  { messages := u.messageOps.foldl applyMessageOp s.messages
    summary := u.summaryUpdate.getD s.summary
    messages_since_last_summary :=
      match u.counterUpdate with
      | none => s.messages_since_last_summary
      | some v => s.messages_since_last_summary + v }

/-- The synthetic system turn prepended at generate time when the stored
summary is non-empty (src/app/graph.py line 40). -/
def summaryContextMessage (freshSys : String) (summary : String) : Message :=
  ensure_message_has_id freshSys
    { id := none, role := .system
      content := "This is a summary of the conversation so far: " ++ summary }

/-- The fallback user turn substituted when the prompt context would be
empty (src/app/graph.py lines 45-46). -/
def helloMessage (freshHello : String) : Message :=
  ensure_message_has_id freshHello { id := none, role := .user, content := "Hello." }

/-- The prompt context call_llm_node sends to the LLM: optional summary
system turn, then the state's messages; if that list is empty, a single
synthetic user turn with content "Hello.". -/
def messages_to_send_to_llm (freshSys freshHello : String) (state : AgentState) :
    List Message :=
  let base :=
    (if state.summary ≠ "" then [summaryContextMessage freshSys state.summary] else [])
      ++ state.messages
  if base.isEmpty then [helloMessage freshHello] else base

/-- call_llm_node from src/app/graph.py: call the LLM on the prompt
context; on success return the update appending the response (with an id
ensured) and adding 1 to the pending counter. `none` embeds the llm call
raising. -/
def call_llm_node (llm : List Message → Option Message)
    (freshSys freshHello freshResp : String) (state : AgentState) :
    Option StateUpdate :=
  match llm (messages_to_send_to_llm freshSys freshHello state) with
  | none => none
  | some response =>
      some { messageOps := [.push (ensure_message_has_id freshResp response)]
             summaryUpdate := none
             counterUpdate := some 1 }

/-- should_summarize_node from src/app/graph.py: route to the
summarization node iff the pending counter has reached the threshold. -/
def should_summarize_node (state : AgentState) : Bool :=
  state.messages_since_last_summary ≥ NEW_MESSAGES_THRESHOLD_FOR_SUMMARY

/-- The isinstance filter of summarize_conversation_node; the three
embedded roles are exactly HumanMessage, AIMessage and SystemMessage, so
every embedded message is summarizable. -/
def is_summarizable (m : Message) : Bool :=
  match m.role with
  | .system => true
  | .user => true
  | .assistant => true

/-- Python class name of a message, as used by the fold prompt rendering
(m.__class__.__name__ in src/app/graph.py line 77). -/
def pythonClassName : Role → String
  | .system => "SystemMessage"
  | .user => "HumanMessage"
  | .assistant => "AIMessage"

/-- Rendering of one turn inside the fold prompt: class name, colon,
space, content. -/
def renderMessage (m : Message) : String :=
  pythonClassName m.role ++ ": " ++ m.content

/-- The newline-joined rendering of the summarizable turns. -/
def formatted_messages (msgs : List Message) : String :=
  String.intercalate "\n" (msgs.map renderMessage)

/-- The header of the fold prompt, chosen by whether a summary already
exists (src/app/graph.py lines 73-75). -/
def prompt_header (existing_summary : String) : String :=
  if existing_summary ≠ "" then
    "Please extend this summary with the new conversation excerpts below.\n"
  else
    "Please create a concise summary of the following conversation:\n"

/-- The complete fold prompt sent to the summarization call
(src/app/graph.py lines 77-80). -/
def full_prompt (existing_summary : String) (msgs : List Message) : String :=
  let base := prompt_header existing_summary ++ formatted_messages msgs
  if existing_summary ≠ "" then
    "Previous Summary:\n" ++ existing_summary ++ "\n\n" ++ base
  else
    base

/-- The slice of summarizable turns to tombstone: all but the last
MESSAGES_TO_KEEP_AFTER_SUMMARY. Python list slicing with the possibly
negative bound len - 2 agrees with truncated Nat subtraction here. -/
def messages_to_remove (summarizable : List Message) : List Message :=
  summarizable.take (summarizable.length - MESSAGES_TO_KEEP_AFTER_SUMMARY)

/-- The RemoveMessage directives: one per removed turn that carries a
truthy (non-empty string) id, as filtered on src/app/graph.py line 90. -/
def delete_directives (summarizable : List Message) : List MessageOp :=
  (messages_to_remove summarizable).filterMap fun m =>
    match m.id with
    | some i => if i ≠ "" then some (.removeById i) else none
    | none => none

/-- summarize_conversation_node from src/app/graph.py: build the fold
prompt from the summarizable turns, call the LLM on it as a single user
turn, and on success return the update carrying the trimmed new summary,
the tombstones, and the counter return value
len(messages) - len(delete_directives), which the operator.add reducer
then ADDS to the current counter. -/
def summarize_conversation_node (llm : List Message → Option Message)
    (freshPrompt : String) (state : AgentState) : Option StateUpdate :=
  let summarizable := state.messages.filter is_summarizable
  match llm [ensure_message_has_id freshPrompt
      { id := none, role := .user, content := full_prompt state.summary summarizable }] with
  | none => none
  | some response =>
      let ops := delete_directives summarizable
      some { messageOps := ops
             summaryUpdate := some response.content.trim
             counterUpdate := some ((state.messages.length : Int) - (ops.length : Int)) }

/-- The external collaborators and fresh ids one advance call draws on. -/
structure Oracles where
  chat : List Message → Option Message
  freshSys : String
  freshHello : String
  freshResp : String
  freshPrompt : String

/-- Outcome of one advance call, carrying the durably persisted state.
With a checkpointer, LangGraph writes the input checkpoint before the
first node runs, so a completion failure leaves the input update
durable. -/
inductive AdvanceResult where
  | completionFailed (persisted : AgentState)
  | compactionFailed (persisted : AgentState)
  | ok (final : AgentState) (compacted : Bool)
deriving DecidableEq, Repr

/-- The update carried by the graph input of one chat call:
inputs = a single new human message, no other channel touched. -/
def inputUpdate (userMsg : Message) : StateUpdate :=
  { messageOps := [.push userMsg], summaryUpdate := none, counterUpdate := none }

/-- One advance call (src/app/main.py stream_chat_responses driving the
compiled graph): persist the input, run call_llm_node, route via
should_summarize_node, and possibly run summarize_conversation_node. -/
def advance (o : Oracles) (state : AgentState) (userMsg : Message) : AdvanceResult :=
  let s0 := applyUpdate state (inputUpdate userMsg)
  match call_llm_node o.chat o.freshSys o.freshHello o.freshResp s0 with
  | none => .completionFailed s0
  | some u1 =>
      let s1 := applyUpdate s0 u1
      if should_summarize_node s1 then
        match summarize_conversation_node o.chat o.freshPrompt s1 with
        | none => .compactionFailed s1
        | some u2 => .ok (applyUpdate s1 u2) true
      else
        .ok s1 false

/-- Whether compaction ran (its node was entered) in an advance call. -/
def compactionRan : AdvanceResult → Bool
  | .completionFailed _ => false
  | .compactionFailed _ => true
  | .ok _ c => c

/-- The checkpoint store: newest checkpoint first, keyed by thread id. -/
def Store : Type := List (String × AgentState)

/-- graph_app.update_state: write a new latest checkpoint for a thread. -/
def update_state (store : Store) (thread_id : String) (s : AgentState) : Store :=
  (thread_id, s) :: store

/-- graph_app.get_state: the latest checkpoint of a thread, if any. -/
def get_state (store : Store) (thread_id : String) : Option AgentState :=
  (store.find? (fun p => p.1 == thread_id)).map Prod.snd

/-- The initial state written by the session-creation endpoints in
src/app/main.py: one system turn with an ensured id, empty summary,
counter 0. -/
def initial_state (freshId system_prompt : String) : AgentState :=
  { messages := [ensure_message_has_id freshId
      { id := none, role := .system, content := system_prompt }]
    summary := ""
    messages_since_last_summary := 0 }

/-- new_assistant endpoint from src/app/main.py: create a session with a
custom system prompt by writing its first checkpoint. -/
def new_assistant (store : Store) (thread_id freshId system_prompt : String) : Store :=
  update_state store thread_id (initial_state freshId system_prompt)

/-- Role labels of the spec's Turn data model. -/
def roleLabel : Role → String
  | .system => "system"
  | .user => "user"
  | .assistant => "assistant"

/-- Modelled from the spec: the fold prompt as section 4.3's words
describe it, with turns rendered as role colon content over the spec's
role names, for comparison with the source's full_prompt. -/
def spec_fold_prompt (existing_summary : String) (msgs : List Message) : String :=
  (if existing_summary ≠ "" then "Previous Summary: " ++ existing_summary ++ "\n" else "")
    ++ (if existing_summary ≠ "" then
          "Please extend this summary with the new conversation excerpts below:\n"
        else
          "Please create a concise summary of the following conversation:\n")
    ++ String.intercalate "\n" (msgs.map (fun m => roleLabel m.role ++ ": " ++ m.content))

/-! Helper lemmas. -/

theorem ite_isEmpty_ne_nil (l : List Message) (f : String) :
    (if l.isEmpty then [helloMessage f] else l) ≠ [] := by
  cases l <;> simp [helloMessage, ensure_message_has_id]

theorem filter_is_summarizable (msgs : List Message) :
    msgs.filter is_summarizable = msgs := by
  apply List.filter_eq_self.mpr
  intro m _
  cases h : m.role <;> simp [is_summarizable, h]

theorem addMessage_of_fresh (msgs : List Message) (m : Message)
    (h : m.id ∉ msgs.map Message.id) : addMessage msgs m = msgs ++ [m] := by
  have hany : ¬ (msgs.any (fun x => x.id = m.id) = true) := by
    simp only [List.any_eq_true, decide_eq_true_eq, not_exists, not_and]
    intro x hx hid
    exact h (hid ▸ List.mem_map_of_mem Message.id hx)
  simp [addMessage, hany]

theorem applyUpdate_input (state : AgentState) (userMsg : Message)
    (h : userMsg.id ∉ state.messages.map Message.id) :
    applyUpdate state (inputUpdate userMsg) =
      { state with messages := state.messages ++ [userMsg] } := by
  simp [applyUpdate, inputUpdate, applyMessageOp, addMessage_of_fresh state.messages userMsg h]

theorem filterMap_eq_map_of_forall {α β : Type} (f : α → Option β) (g : α → β) :
    ∀ l : List α, (∀ a ∈ l, f a = some (g a)) → l.filterMap f = l.map g := by
  intro l
  induction l with
  | nil => simp
  | cons a t ih =>
      intro h
      rw [List.filterMap_cons, h a (List.mem_cons_self a t), List.map_cons,
        ih (fun x hx => h x (List.mem_cons_of_mem a hx))]

theorem advance_of_gen (o : Oracles) (state : AgentState) (userMsg : Message)
    (u1 : StateUpdate)
    (hgen : call_llm_node o.chat o.freshSys o.freshHello o.freshResp
      (applyUpdate state (inputUpdate userMsg)) = some u1) :
    advance o state userMsg =
      (if should_summarize_node (applyUpdate (applyUpdate state (inputUpdate userMsg)) u1) then
        (match summarize_conversation_node o.chat o.freshPrompt
            (applyUpdate (applyUpdate state (inputUpdate userMsg)) u1) with
         | none =>
            AdvanceResult.compactionFailed
              (applyUpdate (applyUpdate state (inputUpdate userMsg)) u1)
         | some u2 =>
            AdvanceResult.ok
              (applyUpdate (applyUpdate (applyUpdate state (inputUpdate userMsg)) u1) u2) true)
      else
        AdvanceResult.ok (applyUpdate (applyUpdate state (inputUpdate userMsg)) u1) false) := by
  simp only [advance]
  rw [hgen]

theorem call_llm_node_inv (llm : List Message → Option Message)
    (freshSys freshHello freshResp : String) (state : AgentState) (u : StateUpdate)
    (h : call_llm_node llm freshSys freshHello freshResp state = some u) :
    ∃ response, llm (messages_to_send_to_llm freshSys freshHello state) = some response ∧
      u = { messageOps := [.push (ensure_message_has_id freshResp response)]
            summaryUpdate := none
            counterUpdate := some 1 } := by
  unfold call_llm_node at h
  cases hllm : llm (messages_to_send_to_llm freshSys freshHello state) with
  | none => rw [hllm] at h; cases h
  | some response =>
      rw [hllm] at h
      exact ⟨response, rfl, (Option.some.inj h).symm⟩

theorem summarize_node_inv (llm : List Message → Option Message) (fp : String)
    (state : AgentState) (u : StateUpdate)
    (h : summarize_conversation_node llm fp state = some u) :
    ∃ resp, llm [ensure_message_has_id fp
        { id := none, role := .user
          content := full_prompt state.summary (state.messages.filter is_summarizable) }] =
        some resp ∧
      u = { messageOps := delete_directives (state.messages.filter is_summarizable)
            summaryUpdate := some resp.content.trim
            counterUpdate := some ((state.messages.length : Int) -
              ((delete_directives (state.messages.filter is_summarizable)).length : Int)) } := by
  simp only [summarize_conversation_node] at h
  cases hllm : llm [ensure_message_has_id fp
      { id := none, role := .user
        content := full_prompt state.summary (state.messages.filter is_summarizable) }] with
  | none => rw [hllm] at h; cases h
  | some resp =>
      rw [hllm] at h
      exact ⟨resp, rfl, (Option.some.inj h).symm⟩

theorem delete_directives_eq_map (msgs : List Message)
    (hid : ∀ m ∈ msgs, ∃ i, m.id = some i ∧ i ≠ "") :
    delete_directives msgs =
      (messages_to_remove msgs).map (fun m => MessageOp.removeById (m.id.getD "")) := by
  apply filterMap_eq_map_of_forall
  intro m hm
  have hmem : m ∈ msgs :=
    List.take_subset _ msgs (by simpa [messages_to_remove] using hm)
  obtain ⟨i, hi, hne⟩ := hid m hmem
  simp only [hi, Option.getD_some]
  simp [hne]

theorem foldl_removeById (B : List Message) :
    ∀ A : List Message, (∀ m ∈ A, ∃ i, m.id = some i ∧ i ≠ "") →
      (((A ++ B).map Message.id).Nodup) →
      List.foldl applyMessageOp (A ++ B)
        (A.map fun m => MessageOp.removeById (m.id.getD "")) = B := by
  intro A
  induction A with
  | nil => simp
  | cons a A ih =>
      intro hid hnd
      obtain ⟨i, hia, hine⟩ := hid a (List.mem_cons_self a A)
      rw [List.cons_append, List.map_cons, List.nodup_cons] at hnd
      have hstep : applyMessageOp ((a :: A) ++ B) (MessageOp.removeById (a.id.getD "")) =
          A ++ B := by
        rw [hia]
        simp only [Option.getD_some, applyMessageOp, List.cons_append, List.filter_cons]
        rw [if_neg (by simp [hia])]
        apply List.filter_eq_self.mpr
        intro x hx
        have hxne : x.id ≠ a.id := fun he =>
          hnd.1 (he ▸ List.mem_map_of_mem Message.id hx)
        rw [hia] at hxne
        simpa using hxne
      rw [List.map_cons, List.foldl_cons, hstep]
      exact ih (fun m hm => hid m (List.mem_cons_of_mem a hm)) hnd.2

/-! Claim theorems. -/

/-- C1 code-bug evidence: at a state with pending counter 10 and five
surviving turns of which three are tombstoned, the compaction step
leaves the counter at 12 (old value plus surviving count, because the
operator.add reducer adds the node's returned value despite the source
comment saying reset), while the surviving-turn count is 2. -/
theorem C1_counter_not_reset :
    ((summarize_conversation_node
        (fun _ => some { id := some "sm", role := Role.assistant, content := " folded " }) "pr"
        { messages :=
            [{ id := some "m1", role := Role.system, content := "p" },
             { id := some "m2", role := Role.user, content := "a" },
             { id := some "m3", role := Role.assistant, content := "b" },
             { id := some "m4", role := Role.user, content := "c" },
             { id := some "m5", role := Role.assistant, content := "d" }]
          summary := ""
          messages_since_last_summary := 10 }).map
      (fun u => (applyUpdate
        { messages :=
            [{ id := some "m1", role := Role.system, content := "p" },
             { id := some "m2", role := Role.user, content := "a" },
             { id := some "m3", role := Role.assistant, content := "b" },
             { id := some "m4", role := Role.user, content := "c" },
             { id := some "m5", role := Role.assistant, content := "d" }]
          summary := ""
          messages_since_last_summary := 10 } u).messages_since_last_summary)) = some 12 ∧
    ((summarize_conversation_node
        (fun _ => some { id := some "sm", role := Role.assistant, content := " folded " }) "pr"
        { messages :=
            [{ id := some "m1", role := Role.system, content := "p" },
             { id := some "m2", role := Role.user, content := "a" },
             { id := some "m3", role := Role.assistant, content := "b" },
             { id := some "m4", role := Role.user, content := "c" },
             { id := some "m5", role := Role.assistant, content := "d" }]
          summary := ""
          messages_since_last_summary := 10 }).map
      (fun u => ((applyUpdate
        { messages :=
            [{ id := some "m1", role := Role.system, content := "p" },
             { id := some "m2", role := Role.user, content := "a" },
             { id := some "m3", role := Role.assistant, content := "b" },
             { id := some "m4", role := Role.user, content := "c" },
             { id := some "m5", role := Role.assistant, content := "d" }]
          summary := ""
          messages_since_last_summary := 10 } u).messages.length : Int))) = some 2 ∧
    (12 : Int) ≠ (2 : Int) :=
  ⟨rfl, rfl, by decide⟩

/-- C3: a successful compaction tombstones by id exactly the
summarizable turns other than the last MESSAGES_TO_KEEP_AFTER_SUMMARY,
and the turns surviving the tombstones are exactly those last ones. -/
theorem C3_compaction_retention (llm : List Message → Option Message) (fp : String)
    (state : AgentState) (u : StateUpdate)
    (hid : ∀ m ∈ state.messages, ∃ i, m.id = some i ∧ i ≠ "")
    (hnd : (state.messages.map Message.id).Nodup)
    (hrun : summarize_conversation_node llm fp state = some u) :
    u.messageOps =
      (state.messages.take (state.messages.length - MESSAGES_TO_KEEP_AFTER_SUMMARY)).map
        (fun m => MessageOp.removeById (m.id.getD "")) ∧
    (applyUpdate state u).messages =
      state.messages.drop (state.messages.length - MESSAGES_TO_KEEP_AFTER_SUMMARY) := by
  obtain ⟨resp, hllm, rfl⟩ := summarize_node_inv llm fp state u hrun
  rw [filter_is_summarizable] at *
  have hops : delete_directives state.messages =
      (state.messages.take (state.messages.length - MESSAGES_TO_KEEP_AFTER_SUMMARY)).map
        (fun m => MessageOp.removeById (m.id.getD "")) :=
    delete_directives_eq_map state.messages hid
  refine ⟨hops, ?_⟩
  simp only [applyUpdate]
  rw [hops]
  have hsplit := List.take_append_drop
    (state.messages.length - MESSAGES_TO_KEEP_AFTER_SUMMARY) state.messages
  have hfold := foldl_removeById
    (state.messages.drop (state.messages.length - MESSAGES_TO_KEEP_AFTER_SUMMARY))
    (state.messages.take (state.messages.length - MESSAGES_TO_KEEP_AFTER_SUMMARY))
    (fun m hm => hid m (List.take_subset _ _ hm))
    (by rw [hsplit]; exact hnd)
  rw [hsplit] at hfold
  exact hfold

/-- Witness for C3 on a three-turn state: the first turn is tombstoned
and the last two survive. -/
theorem C3_compaction_retention_witness :
    ({ messageOps := [MessageOp.removeById "a"]
       summaryUpdate := some (String.trim "folded")
       counterUpdate := some 2 } : StateUpdate).messageOps =
      (([{ id := some "a", role := Role.user, content := "x" },
         { id := some "b", role := Role.assistant, content := "y" },
         { id := some "c", role := Role.user, content := "z" }] : List Message).take
          (([{ id := some "a", role := Role.user, content := "x" },
             { id := some "b", role := Role.assistant, content := "y" },
             { id := some "c", role := Role.user, content := "z" }] : List Message).length -
            MESSAGES_TO_KEEP_AFTER_SUMMARY)).map
        (fun m => MessageOp.removeById (m.id.getD "")) ∧
    (applyUpdate
        { messages :=
            [{ id := some "a", role := Role.user, content := "x" },
             { id := some "b", role := Role.assistant, content := "y" },
             { id := some "c", role := Role.user, content := "z" }]
          summary := "", messages_since_last_summary := 10 }
        { messageOps := [MessageOp.removeById "a"]
          summaryUpdate := some (String.trim "folded")
          counterUpdate := some 2 }).messages =
      ([{ id := some "a", role := Role.user, content := "x" },
        { id := some "b", role := Role.assistant, content := "y" },
        { id := some "c", role := Role.user, content := "z" }] : List Message).drop
        (([{ id := some "a", role := Role.user, content := "x" },
           { id := some "b", role := Role.assistant, content := "y" },
           { id := some "c", role := Role.user, content := "z" }] : List Message).length -
          MESSAGES_TO_KEEP_AFTER_SUMMARY) :=
  C3_compaction_retention
    (fun _ => some { id := some "sm", role := Role.assistant, content := "folded" }) "pr"
    { messages :=
        [{ id := some "a", role := Role.user, content := "x" },
         { id := some "b", role := Role.assistant, content := "y" },
         { id := some "c", role := Role.user, content := "z" }]
      summary := "", messages_since_last_summary := 10 }
    { messageOps := [MessageOp.removeById "a"]
      summaryUpdate := some (String.trim "folded")
      counterUpdate := some 2 }
    (by
      intro m hm
      simp only [List.mem_cons, List.not_mem_nil, or_false] at hm
      rcases hm with rfl | rfl | rfl
      · exact ⟨"a", rfl, by decide⟩
      · exact ⟨"b", rfl, by decide⟩
      · exact ⟨"c", rfl, by decide⟩)
    (by decide)
    rfl

/-- C4 counterexample: the fold prompt built by the source differs from
the spec's rendering at a one-turn conversation, because the source
renders turns with Python class names rather than role names. -/
theorem C4_counterexample :
    full_prompt "" [{ id := some "a", role := Role.user, content := "hi" }] ≠
      spec_fold_prompt "" [{ id := some "a", role := Role.user, content := "hi" }] := by
  decide

/-- C4 amended: the summarization call sends a single synthetic user
turn carrying the fold prompt and stores the trimmed response; the fold
prompt is the previous-summary block (with a newline, when the summary
is non-empty), then the extend or create header chosen by summary
emptiness, then each turn rendered as its Python class name, a colon and
its content, newline-joined in ledger order. -/
theorem C4_amended_fold_prompt (llm : List Message → Option Message) (fp : String)
    (state : AgentState) (u : StateUpdate)
    (hrun : summarize_conversation_node llm fp state = some u) :
    (∃ resp, llm [ensure_message_has_id fp
        { id := none, role := Role.user
          content := full_prompt state.summary (state.messages.filter is_summarizable) }] =
        some resp ∧
      u.summaryUpdate = some resp.content.trim) ∧
    state.messages.filter is_summarizable = state.messages ∧
    (state.summary = "" →
      full_prompt state.summary state.messages =
        "Please create a concise summary of the following conversation:\n" ++
          String.intercalate "\n"
            (state.messages.map fun m => pythonClassName m.role ++ ": " ++ m.content)) ∧
    (state.summary ≠ "" →
      full_prompt state.summary state.messages =
        "Previous Summary:\n" ++ state.summary ++ "\n\n" ++
          ("Please extend this summary with the new conversation excerpts below.\n" ++
            String.intercalate "\n"
              (state.messages.map fun m => pythonClassName m.role ++ ": " ++ m.content))) := by
  obtain ⟨resp, hllm, rfl⟩ := summarize_node_inv llm fp state u hrun
  refine ⟨⟨resp, hllm, rfl⟩, filter_is_summarizable _, ?_, ?_⟩
  · intro hs
    simp only [full_prompt, prompt_header, hs, formatted_messages]
    simp
    rfl
  · intro hs
    simp only [full_prompt, prompt_header, hs, formatted_messages]
    simp [hs]
    rfl

/-- Witness for C4 amended on a one-turn state with empty summary. -/
theorem C4_amended_fold_prompt_witness :
    (∃ resp, (fun _ => some { id := some "sm", role := Role.assistant, content := " s " } :
        List Message → Option Message) [ensure_message_has_id "pr"
        { id := none, role := Role.user
          content := full_prompt ""
            (([{ id := some "a", role := Role.user, content := "hi" }] :
              List Message).filter is_summarizable) }] = some resp ∧
      ({ messageOps := delete_directives
            (([{ id := some "a", role := Role.user, content := "hi" }] :
              List Message).filter is_summarizable)
         summaryUpdate := some (String.trim " s ")
         counterUpdate := some 1 } : StateUpdate).summaryUpdate =
        some resp.content.trim) ∧
    ([{ id := some "a", role := Role.user, content := "hi" }] :
        List Message).filter is_summarizable =
      [{ id := some "a", role := Role.user, content := "hi" }] ∧
    (("" : String) = "" →
      full_prompt "" [{ id := some "a", role := Role.user, content := "hi" }] =
        "Please create a concise summary of the following conversation:\n" ++
          String.intercalate "\n"
            (([{ id := some "a", role := Role.user, content := "hi" }] :
              List Message).map fun m => pythonClassName m.role ++ ": " ++ m.content)) ∧
    (("" : String) ≠ "" →
      full_prompt "" [{ id := some "a", role := Role.user, content := "hi" }] =
        "Previous Summary:\n" ++ "" ++ "\n\n" ++
          ("Please extend this summary with the new conversation excerpts below.\n" ++
            String.intercalate "\n"
              (([{ id := some "a", role := Role.user, content := "hi" }] :
                List Message).map fun m => pythonClassName m.role ++ ": " ++ m.content))) :=
  C4_amended_fold_prompt
    (fun _ => some { id := some "sm", role := Role.assistant, content := " s " }) "pr"
    { messages := [{ id := some "a", role := Role.user, content := "hi" }]
      summary := "", messages_since_last_summary := 10 }
    { messageOps := delete_directives
        (([{ id := some "a", role := Role.user, content := "hi" }] :
          List Message).filter is_summarizable)
      summaryUpdate := some (String.trim " s ")
      counterUpdate := some 1 }
    rfl

/-- C7: ensure_message_has_id assigns a fresh id only when the message
carries no string id, returns the message with its existing id unchanged
otherwise, and applying it a second time to its own output never changes
the result. -/
theorem C7_id_assignment (m : Message) (f g : String) :
    (m.id = none → ensure_message_has_id f m = { m with id := some f }) ∧
    (∀ i : String, m.id = some i → ensure_message_has_id f m = m) ∧
    ensure_message_has_id g (ensure_message_has_id f m) = ensure_message_has_id f m := by
  obtain ⟨i, r, c⟩ := m
  cases i <;> simp [ensure_message_has_id]

/-- Witness for C7 at a concrete absent-id and present-id message. -/
theorem C7_id_assignment_witness :
    ensure_message_has_id "f" { id := none, role := Role.user, content := "x" } =
      { id := some "f", role := Role.user, content := "x" } ∧
    ensure_message_has_id "f" { id := some "k", role := Role.user, content := "x" } =
      { id := some "k", role := Role.user, content := "x" } ∧
    ensure_message_has_id "g"
        (ensure_message_has_id "f" { id := none, role := Role.user, content := "x" }) =
      ensure_message_has_id "f" { id := none, role := Role.user, content := "x" } :=
  ⟨(C7_id_assignment { id := none, role := Role.user, content := "x" } "f" "g").1 rfl,
   (C7_id_assignment { id := some "k", role := Role.user, content := "x" } "f" "g").2.1 "k" rfl,
   (C7_id_assignment { id := none, role := Role.user, content := "x" } "f" "g").2.2⟩

/-- C9: creating a session with a system prompt and immediately reading
it back yields a state with exactly one turn, of role system carrying
that prompt, an empty summary, and pending counter 0. -/
theorem C9_create_read_round_trip (store : Store) (thread_id freshId system_prompt : String) :
    get_state (new_assistant store thread_id freshId system_prompt) thread_id =
      some { messages := [{ id := some freshId, role := Role.system, content := system_prompt }]
             summary := ""
             messages_since_last_summary := 0 } := by
  simp [get_state, new_assistant, update_state, initial_state, ensure_message_has_id,
    List.find?]

/-- C10: the generate-time prompt context is never the empty list, and
on a state with empty summary and empty ledger it is exactly the single
synthetic user turn with content Hello. -/
theorem C10_empty_context_hello (state : AgentState) (freshSys freshHello : String) :
    messages_to_send_to_llm freshSys freshHello state ≠ [] ∧
    (state.summary = "" → state.messages = [] →
      messages_to_send_to_llm freshSys freshHello state =
        [{ id := some freshHello, role := Role.user, content := "Hello." }]) := by
  constructor
  · unfold messages_to_send_to_llm
    exact ite_isEmpty_ne_nil
      ((if state.summary ≠ "" then [summaryContextMessage freshSys state.summary] else [])
        ++ state.messages) freshHello
  · intro hs hm
    simp [messages_to_send_to_llm, hs, hm, helloMessage, ensure_message_has_id]

/-- Witness for C10 at the empty initial state. -/
theorem C10_empty_context_hello_witness :
    messages_to_send_to_llm "sy" "he"
        { messages := [], summary := "", messages_since_last_summary := 0 } =
      [{ id := some "he", role := Role.user, content := "Hello." }] :=
  (C10_empty_context_hello
    { messages := [], summary := "", messages_since_last_summary := 0 } "sy" "he").2 rfl rfl

/-- C5: after a successful generate step, the conditional edge routes to
the summarization node iff the updated pending counter is at least the
threshold 10; below the threshold the call ends with the generate
result and no compaction. -/
theorem C5_threshold_routing (o : Oracles) (state : AgentState) (userMsg : Message)
    (u1 : StateUpdate)
    (hgen : call_llm_node o.chat o.freshSys o.freshHello o.freshResp
      (applyUpdate state (inputUpdate userMsg)) = some u1) :
    (compactionRan (advance o state userMsg) = true ↔
      (applyUpdate (applyUpdate state (inputUpdate userMsg)) u1).messages_since_last_summary ≥
        NEW_MESSAGES_THRESHOLD_FOR_SUMMARY) ∧
    ((applyUpdate (applyUpdate state (inputUpdate userMsg)) u1).messages_since_last_summary <
        NEW_MESSAGES_THRESHOLD_FOR_SUMMARY →
      advance o state userMsg =
        .ok (applyUpdate (applyUpdate state (inputUpdate userMsg)) u1) false) := by
  rw [advance_of_gen o state userMsg u1 hgen]
  by_cases hc : (applyUpdate (applyUpdate state (inputUpdate userMsg)) u1).messages_since_last_summary ≥
      NEW_MESSAGES_THRESHOLD_FOR_SUMMARY
  · have hss : should_summarize_node (applyUpdate (applyUpdate state (inputUpdate userMsg)) u1) = true := by
      simpa [should_summarize_node] using hc
    rw [hss]
    refine ⟨⟨fun _ => hc, fun _ => ?_⟩, fun hlt => absurd hc (not_le.mpr hlt)⟩
    simp only [if_true]
    cases summarize_conversation_node o.chat o.freshPrompt
        (applyUpdate (applyUpdate state (inputUpdate userMsg)) u1) <;>
      simp [compactionRan]
  · have hss : should_summarize_node (applyUpdate (applyUpdate state (inputUpdate userMsg)) u1) = false := by
      simp only [should_summarize_node]
      simpa using hc
    rw [hss]
    refine ⟨⟨fun h => ?_, fun h => absurd h hc⟩, fun _ => by simp⟩
    simp [compactionRan] at h

/-- Witness for C5: with the counter at 3 before the call, the updated
counter 4 is below the threshold and no compaction runs. -/
theorem C5_threshold_routing_witness :
    (compactionRan (advance
        { chat := fun _ => some { id := some "r", role := Role.assistant, content := "ok" }
          freshSys := "sy", freshHello := "he", freshResp := "re", freshPrompt := "pr" }
        { messages := [{ id := some "s1", role := Role.system, content := "p" }]
          summary := "", messages_since_last_summary := 3 }
        { id := some "u1", role := Role.user, content := "Hi" }) = true ↔
      (applyUpdate (applyUpdate
          { messages := [{ id := some "s1", role := Role.system, content := "p" }]
            summary := "", messages_since_last_summary := 3 }
          (inputUpdate { id := some "u1", role := Role.user, content := "Hi" }))
        { messageOps := [.push { id := some "r", role := Role.assistant, content := "ok" }]
          summaryUpdate := none
          counterUpdate := some 1 }).messages_since_last_summary ≥
        NEW_MESSAGES_THRESHOLD_FOR_SUMMARY) ∧
    ((applyUpdate (applyUpdate
          { messages := [{ id := some "s1", role := Role.system, content := "p" }]
            summary := "", messages_since_last_summary := 3 }
          (inputUpdate { id := some "u1", role := Role.user, content := "Hi" }))
        { messageOps := [.push { id := some "r", role := Role.assistant, content := "ok" }]
          summaryUpdate := none
          counterUpdate := some 1 }).messages_since_last_summary <
        NEW_MESSAGES_THRESHOLD_FOR_SUMMARY →
      advance
        { chat := fun _ => some { id := some "r", role := Role.assistant, content := "ok" }
          freshSys := "sy", freshHello := "he", freshResp := "re", freshPrompt := "pr" }
        { messages := [{ id := some "s1", role := Role.system, content := "p" }]
          summary := "", messages_since_last_summary := 3 }
        { id := some "u1", role := Role.user, content := "Hi" } =
        .ok (applyUpdate (applyUpdate
            { messages := [{ id := some "s1", role := Role.system, content := "p" }]
              summary := "", messages_since_last_summary := 3 }
            (inputUpdate { id := some "u1", role := Role.user, content := "Hi" }))
          { messageOps := [.push { id := some "r", role := Role.assistant, content := "ok" }]
            summaryUpdate := none
            counterUpdate := some 1 }) false) :=
  C5_threshold_routing
    { chat := fun _ => some { id := some "r", role := Role.assistant, content := "ok" }
      freshSys := "sy", freshHello := "he", freshResp := "re", freshPrompt := "pr" }
    { messages := [{ id := some "s1", role := Role.system, content := "p" }]
      summary := "", messages_since_last_summary := 3 }
    { id := some "u1", role := Role.user, content := "Hi" }
    { messageOps := [.push { id := some "r", role := Role.assistant, content := "ok" }]
      summaryUpdate := none
      counterUpdate := some 1 }
    rfl

/-- C6: a successful advance call that does not trigger compaction
leaves the pending counter at exactly its prior value plus 1. -/
theorem C6_pending_increment (o : Oracles) (state : AgentState) (userMsg : Message)
    (u1 : StateUpdate)
    (hgen : call_llm_node o.chat o.freshSys o.freshHello o.freshResp
      (applyUpdate state (inputUpdate userMsg)) = some u1)
    (hlow : state.messages_since_last_summary + 1 < NEW_MESSAGES_THRESHOLD_FOR_SUMMARY) :
    advance o state userMsg =
      .ok (applyUpdate (applyUpdate state (inputUpdate userMsg)) u1) false ∧
    (applyUpdate (applyUpdate state (inputUpdate userMsg)) u1).messages_since_last_summary =
      state.messages_since_last_summary + 1 := by
  obtain ⟨response, hllm, rfl⟩ := call_llm_node_inv o.chat o.freshSys o.freshHello o.freshResp
    (applyUpdate state (inputUpdate userMsg)) u1 hgen
  have hcnt : (applyUpdate (applyUpdate state (inputUpdate userMsg))
      { messageOps := [.push (ensure_message_has_id o.freshResp response)]
        summaryUpdate := none
        counterUpdate := some 1 }).messages_since_last_summary =
      state.messages_since_last_summary + 1 := rfl
  refine ⟨?_, hcnt⟩
  rw [advance_of_gen o state userMsg _ hgen]
  have hss : should_summarize_node (applyUpdate (applyUpdate state (inputUpdate userMsg))
      { messageOps := [.push (ensure_message_has_id o.freshResp response)]
        summaryUpdate := none
        counterUpdate := some 1 }) = false := by
    simp only [should_summarize_node, hcnt]
    simpa using not_le.mpr hlow
  rw [hss]
  simp

/-- Witness for C6: a fresh session at counter 0 reaches counter 1. -/
theorem C6_pending_increment_witness :
    advance
        { chat := fun _ => some { id := some "r", role := Role.assistant, content := "ok" }
          freshSys := "sy", freshHello := "he", freshResp := "re", freshPrompt := "pr" }
        { messages := [{ id := some "s1", role := Role.system, content := "p" }]
          summary := "", messages_since_last_summary := 0 }
        { id := some "u1", role := Role.user, content := "Hi" } =
      .ok (applyUpdate (applyUpdate
          { messages := [{ id := some "s1", role := Role.system, content := "p" }]
            summary := "", messages_since_last_summary := 0 }
          (inputUpdate { id := some "u1", role := Role.user, content := "Hi" }))
        { messageOps := [.push { id := some "r", role := Role.assistant, content := "ok" }]
          summaryUpdate := none
          counterUpdate := some 1 }) false ∧
    (applyUpdate (applyUpdate
        { messages := [{ id := some "s1", role := Role.system, content := "p" }]
          summary := "", messages_since_last_summary := 0 }
        (inputUpdate { id := some "u1", role := Role.user, content := "Hi" }))
      { messageOps := [.push { id := some "r", role := Role.assistant, content := "ok" }]
        summaryUpdate := none
        counterUpdate := some 1 }).messages_since_last_summary = 0 + 1 :=
  C6_pending_increment
    { chat := fun _ => some { id := some "r", role := Role.assistant, content := "ok" }
      freshSys := "sy", freshHello := "he", freshResp := "re", freshPrompt := "pr" }
    { messages := [{ id := some "s1", role := Role.system, content := "p" }]
      summary := "", messages_since_last_summary := 0 }
    { id := some "u1", role := Role.user, content := "Hi" }
    { messageOps := [.push { id := some "r", role := Role.assistant, content := "ok" }]
      summaryUpdate := none
      counterUpdate := some 1 }
    rfl (by decide)

/-- C8: during an advance call the generate step sends the optional
synthetic summary system turn (present exactly when the stored summary
is non-empty) followed by the effective ledger including the new user
turn, and its ledger update pushes only the assistant response, never
the synthetic turn. -/
theorem C8_generate_context (o : Oracles) (state : AgentState) (userMsg : Message)
    (response : Message)
    (hfresh : userMsg.id ∉ state.messages.map Message.id)
    (hchat : o.chat (messages_to_send_to_llm o.freshSys o.freshHello
      (applyUpdate state (inputUpdate userMsg))) = some response) :
    messages_to_send_to_llm o.freshSys o.freshHello (applyUpdate state (inputUpdate userMsg)) =
      (if state.summary ≠ "" then [summaryContextMessage o.freshSys state.summary] else [])
        ++ (state.messages ++ [userMsg]) ∧
    call_llm_node o.chat o.freshSys o.freshHello o.freshResp
        (applyUpdate state (inputUpdate userMsg)) =
      some { messageOps := [.push (ensure_message_has_id o.freshResp response)]
             summaryUpdate := none
             counterUpdate := some 1 } := by
  have hs0 := applyUpdate_input state userMsg hfresh
  have hctx : messages_to_send_to_llm o.freshSys o.freshHello
      (applyUpdate state (inputUpdate userMsg)) =
      (if state.summary ≠ "" then [summaryContextMessage o.freshSys state.summary] else [])
        ++ (state.messages ++ [userMsg]) := by
    rw [hs0]
    unfold messages_to_send_to_llm
    simp only
    rw [if_neg]
    simp [List.isEmpty_iff]
  refine ⟨hctx, ?_⟩
  unfold call_llm_node
  rw [hchat]

/-- Witness for C8 with a non-empty summary: the synthetic summary turn
leads the context and only the assistant response is pushed. -/
theorem C8_generate_context_witness :
    messages_to_send_to_llm "sy" "he"
        (applyUpdate
          { messages := [{ id := some "s1", role := Role.system, content := "p" }]
            summary := "old", messages_since_last_summary := 1 }
          (inputUpdate { id := some "u1", role := Role.user, content := "Hi" })) =
      (if ("old" : String) ≠ "" then [summaryContextMessage "sy" "old"] else [])
        ++ ([{ id := some "s1", role := Role.system, content := "p" }]
            ++ [{ id := some "u1", role := Role.user, content := "Hi" }]) ∧
    call_llm_node
        (fun _ => some { id := some "r", role := Role.assistant, content := "ok" })
        "sy" "he" "re"
        (applyUpdate
          { messages := [{ id := some "s1", role := Role.system, content := "p" }]
            summary := "old", messages_since_last_summary := 1 }
          (inputUpdate { id := some "u1", role := Role.user, content := "Hi" })) =
      some { messageOps :=
              [.push (ensure_message_has_id "re"
                { id := some "r", role := Role.assistant, content := "ok" })]
             summaryUpdate := none
             counterUpdate := some 1 } :=
  C8_generate_context
    { chat := fun _ => some { id := some "r", role := Role.assistant, content := "ok" }
      freshSys := "sy", freshHello := "he", freshResp := "re", freshPrompt := "pr" }
    { messages := [{ id := some "s1", role := Role.system, content := "p" }]
      summary := "old", messages_since_last_summary := 1 }
    { id := some "u1", role := Role.user, content := "Hi" }
    { id := some "r", role := Role.assistant, content := "ok" }
    (by decide) rfl

/-- C2 counterexample: with a failing completion client, the advance
call fails, but the durably persisted state is NOT the state before the
call: the user turn was written by the input checkpoint. -/
theorem C2_counterexample :
    advance
        { chat := fun _ => none
          freshSys := "sy", freshHello := "he", freshResp := "re", freshPrompt := "pr" }
        { messages := [{ id := some "s1", role := Role.system, content := "You are terse." }]
          summary := "", messages_since_last_summary := 0 }
        { id := some "u1", role := Role.user, content := "Hi" } =
      .completionFailed
        { messages := [{ id := some "s1", role := Role.system, content := "You are terse." },
                       { id := some "u1", role := Role.user, content := "Hi" }]
          summary := "", messages_since_last_summary := 0 } ∧
    ({ messages := [{ id := some "s1", role := Role.system, content := "You are terse." },
                    { id := some "u1", role := Role.user, content := "Hi" }]
       summary := "", messages_since_last_summary := 0 } : AgentState) ≠
      { messages := [{ id := some "s1", role := Role.system, content := "You are terse." }]
        summary := "", messages_since_last_summary := 0 } :=
  ⟨rfl, by decide⟩

/-- C2 amended: when the completion client fails on the generate step,
advance fails with CompletionFailed, no assistant turn is appended and
the pending counter and summary are unchanged, but the user turn IS
durably appended, because the input checkpoint is written before the
node runs. -/
theorem C2_amended_failed_generate (o : Oracles) (state : AgentState) (userMsg : Message)
    (hfresh : userMsg.id ∉ state.messages.map Message.id)
    (hfail : o.chat (messages_to_send_to_llm o.freshSys o.freshHello
      (applyUpdate state (inputUpdate userMsg))) = none) :
    advance o state userMsg =
      .completionFailed { state with messages := state.messages ++ [userMsg] } := by
  have hs0 := applyUpdate_input state userMsg hfresh
  simp only [advance]
  unfold call_llm_node
  rw [hfail, hs0]

/-- Witness for C2 amended at a concrete one-turn session. -/
theorem C2_amended_failed_generate_witness :
    advance
        { chat := fun _ => none
          freshSys := "sy", freshHello := "he", freshResp := "re", freshPrompt := "pr" }
        { messages := [{ id := some "s1", role := Role.system, content := "You are terse." }]
          summary := "", messages_since_last_summary := 0 }
        { id := some "u1", role := Role.user, content := "Hi" } =
      .completionFailed
        { ({ messages := [{ id := some "s1", role := Role.system, content := "You are terse." }]
             summary := "", messages_since_last_summary := 0 } : AgentState) with
          messages :=
            [{ id := some "s1", role := Role.system, content := "You are terse." }] ++
              [{ id := some "u1", role := Role.user, content := "Hi" }] } :=
  C2_amended_failed_generate
    { chat := fun _ => none
      freshSys := "sy", freshHello := "he", freshResp := "re", freshPrompt := "pr" }
    { messages := [{ id := some "s1", role := Role.system, content := "You are terse." }]
      summary := "", messages_since_last_summary := 0 }
    { id := some "u1", role := Role.user, content := "Hi" }
    (by decide) rfl

end BlueMeta
